import Mathlib

/-!
Verification development for the simpleevals-be backend.

The definitions below are a shallow embedding of the JavaScript source
(`src/controllers/mvpController.js`, `src/lib/models.js`, `src/middleware/auth.js`).
External effects (the OpenRouter HTTP calls, `JSON.parse`, the Supabase row
store, `Date.now`, `Math.random`) are passed in explicitly as oracle
parameters, so every function here is a computable, deterministic function of
its inputs.  JavaScript exceptions thrown by the external calls are modelled
with `Except`; JavaScript `null`/`undefined` with `Option`.
-/

namespace SimpleEvals

/-- JavaScript truthiness for strings: the empty string is falsy. -/
def strTruthy (s : String) : Bool := !s.isEmpty

/-- JavaScript truthiness for an optional string (`undefined`/`null` and `""`
are falsy). -/
def optStrTruthy (s : Option String) : Bool :=
  match s with
  | none => false
  | some s => strTruthy s

/-- JavaScript `a || b` for optional strings (used for
`setName || name || "Unnamed Evaluation"` and `reasoning || "..."`). -/
def jsOrString (a : Option String) (b : String) : String :=
  match a with
  | some s => if s.isEmpty then b else s
  | none => b

/-- JavaScript `String.prototype.trim()`: strip whitespace from both ends. -/
def jsTrim (s : String) : String :=
  String.mk
    (((s.data.dropWhile Char.isWhitespace).reverse.dropWhile
        Char.isWhitespace).reverse)

/-! ## `src/lib/models.js` — the Model Display/Slug Registry -/

/-- One entry of the `AVAILABLE_MODELS` table: short id, OpenRouter slug,
display name. -/
structure ModelEntry where
  key : String
  slug : String
  display : String
deriving DecidableEq, Repr

/-- The `AVAILABLE_MODELS` table from `src/lib/models.js`. -/
def AVAILABLE_MODELS : List ModelEntry :=
  [⟨"gpt4o", "openai/gpt-4.1", "GPT-4.1"⟩,
   ⟨"gpt41", "openai/gpt-4.1", "GPT-4.1"⟩,
   ⟨"claude3", "anthropic/claude-3.7-sonnet", "Claude 3.7"⟩,
   ⟨"gemini", "google/gemini-2.5-pro-preview", "Gemini 2.5"⟩]

/-- `getOpenRouterSlug(name)`: the slug for a known short id, else `null`. -/
def getOpenRouterSlug (name : String) : Option String :=
  (AVAILABLE_MODELS.find? (fun e => e.key == name)).map (fun e => e.slug)

/-- `getDisplayName(name)`: the display name for a known short id, else the
name itself. -/
def getDisplayName (name : String) : String :=
  match AVAILABLE_MODELS.find? (fun e => e.key == name) with
  | some e => e.display
  | none => name

/-! ## JavaScript error values thrown by the OpenRouter SDK calls -/

/-- A JavaScript error value as inspected by `getModelResponse`'s catch block:
`error.message`, plus the two optional nested message locations
`error.response.data.error.message` and `error.error.message`. -/
structure JsError where
  message : String
  responseDataErrorMessage : Option String
  errorErrorMessage : Option String
deriving DecidableEq, Repr

/-- The message-extraction logic of `getModelResponse`'s catch block:
start from `error.message`, override with `error.response.data.error.message`
when that chain is present and truthy, else with `error.error.message` when
present and truthy. -/
def extractErrorMessage (e : JsError) : String :=
  match e.responseDataErrorMessage with
  | some m => if strTruthy m then m
              else match e.errorErrorMessage with
                   | some m2 => if strTruthy m2 then m2 else e.message
                   | none => e.message
  | none =>
    match e.errorErrorMessage with
    | some m2 => if strTruthy m2 then m2 else e.message
    | none => e.message

/-! ## `getModelResponse` — the Model Responder

The OpenRouter round trip (`openRouterClient.chat.completions.create` followed
by `completion.choices[0].message.content`) is an external effect, passed in as
`call : Except JsError String`: `.ok content` for a successful call whose
payload extraction produced `content`, `.error e` when the call (or the payload
access) threw `e`.  The whole of that region is inside the `try`, so any throw
lands in the catch block. -/

/-- Shallow embedding of `getModelResponse(modelName, question, systemMessage)`
from `mvpController.js`.  `question` and `systemMessage` only influence the
request that is sent, which is folded into the `call` oracle. -/
def getModelResponse (modelName : String) (call : Except JsError String) : String :=
  match getOpenRouterSlug modelName with
  | none =>
      "Model " ++ modelName ++ " not supported via OpenRouter in this configuration."
  | some _ =>
      match call with
      | .ok content => jsTrim content
      | .error e =>
          "Error getting response from " ++ modelName ++ " via OpenRouter: "
            ++ extractErrorMessage e

/-! ## `evaluateResponse` — the Judge Evaluator -/

/-- The evaluator prompt template (`evaluatorPromptTemplate`), with the three
placeholders. -/
def evaluatorPromptTemplate : String :=
  "\nYou are a precise and objective evaluator tasked with determining if a model's answer correctly responds to a user question based on a provided reference answer.\n\n[QUESTION]\n\x7bquestion\x7d\n\n[REFERENCE ANSWER]\n\x7breference_answer\x7d\n\n[MODEL RESPONSE]\n\x7bmodel_response\x7d\n\nEvaluate whether the model response correctly answers the question by comparing it to the reference answer. \n\nInstructions for evaluation:\n1. The response is CORRECT if it contains the same key information as the reference answer, even if phrased differently.\n2. The response is INCORRECT if it:\n   - Contradicts the reference answer\n   - Misses critical information contained in the reference answer\n   - Adds incorrect information not in the reference answer\n   - Fails to address the question directly\n\nRespond with a JSON object in the following format:\n\x7b\n  \"is_correct\": true/false,\n  \"reasoning\": \"A brief explanation (1-2 sentences) of why the response is correct or incorrect.\"\n\x7d\n\nYour evaluation must be strict but fair, focusing only on correctness of information rather than style, verbosity, or tone.\n"

/-- The rendered judge prompt: the template with the three placeholders
substituted (each placeholder occurs once, so JavaScript's first-occurrence
`String.prototype.replace` agrees with replace-all). -/
def renderJudgePrompt (question referenceAnswer modelResponse : String) : String :=
  ((evaluatorPromptTemplate.replace "\x7bquestion\x7d" question).replace
      "\x7breference_answer\x7d" referenceAnswer).replace
    "\x7bmodel_response\x7d" modelResponse

/-- The `{is_correct, reasoning}` object parsed from the judge model's JSON
reply. -/
structure JudgeVerdict where
  is_correct : Bool
  reasoning : String
deriving DecidableEq, Repr

/-- The fixed fallback value returned by `evaluateResponse` on any failure. -/
def judgeFallback : JudgeVerdict :=
  { is_correct := false, reasoning := "Error during evaluation." }

/-- Shallow embedding of `evaluateResponse(question, referenceAnswer,
modelResponse)`.  `call` is the OpenRouter round trip, applied to the rendered
prompt and yielding the reply's text content (or a thrown error);
`parseJson` is `JSON.parse` on that content, `none` when it throws. -/
def evaluateResponse (question referenceAnswer modelResponse : String)
    (call : String → Except JsError String)
    (parseJson : String → Option JudgeVerdict) : JudgeVerdict :=
  match call (renderJudgePrompt question referenceAnswer modelResponse) with
  | .error _ => judgeFallback
  | .ok content =>
      match parseJson content with
      | none => judgeFallback
      | some r => r

/-! ## The UUID shape test -/

/-- Is `c` a hexadecimal digit (the `[0-9a-f]` class with the `i` flag)? -/
def isHexChar (c : Char) : Bool :=
  c.isDigit || ('a' ≤ c && c ≤ 'f') || ('A' ≤ c && c ≤ 'F')

/-- The UUID shape test
`/^[0-9a-f]{8}-[0-9a-f]{4}-[0-9a-f]{4}-[0-9a-f]{4}-[0-9a-f]{12}$/i`:
36 characters, hyphens exactly at indices 8, 13, 18, 23, hex digits
everywhere else. -/
def isUuidFormat (s : String) : Bool :=
  let cs := s.data
  cs.length == 36 &&
    (List.range 36).all (fun i =>
      if i == 8 || i == 13 || i == 18 || i == 23 then cs.getD i ' ' == '-'
      else isHexChar (cs.getD i ' '))

/-! ## `evaluationsStore.generateId` -/

/-- The character `Number.prototype.toString(36)` uses for digit value `d`:
`'0'`–`'9'` then `'a'`–`'z'`. -/
def base36Char (d : Fin 36) : Char :=
  if d.val < 10 then Char.ofNat ('0'.toNat + d.val)
  else Char.ofNat ('a'.toNat + (d.val - 10))

/-- Shallow embedding of `evaluationsStore.generateId`:
`Math.random().toString(36).substring(2, 15)` twice, concatenated.  Each
`Math.random()` draw is modelled by the (up to 13) base-36 fraction digits of
the random number that `substring(2, 15)` keeps. -/
def generateId (r1 r2 : List (Fin 36)) : String :=
  String.mk (((r1.take 13).map base36Char) ++ ((r2.take 13).map base36Char))

/-! ## The data model of an evaluation-set record -/

/-- The `timings` sub-object of a Result, in milliseconds. -/
structure Timings where
  responseTime : Nat
  evaluationTime : Nat
  totalTime : Nat
deriving DecidableEq, Repr

/-- The `evaluation` sub-object of a Result.  `Option` models the `null`
fields of the pending state (and the absent `evaluated_by` of the automatic
state). -/
structure Evaluation where
  is_correct : Option Bool
  reasoning : Option String
  evaluation_type : String
  evaluated_at : Option String
  evaluated_by : Option String
deriving DecidableEq, Repr

/-- One per-model Result entry.  `timings` is optional because records written
by other code paths (or hand-inserted rows) may lack it; the paths modelled
here always produce it. -/
structure Result where
  model : String
  response : String
  evaluation : Evaluation
  timings : Option Timings
deriving DecidableEq, Repr

/-- One Question entry of an evaluation set, as pushed by
`evaluationsStore.addQuestion` from the `evaluateSet` loop (`models` holds the
keys of `modelsSelectionForStorage`). -/
structure Question where
  question : String
  referenceAnswer : String
  results : List Result
  models : List String
  systemMessage : Option String
  timestamp : String
deriving DecidableEq, Repr

/-- An evaluation-set record as held in the transient store.  `supabaseId` is
the cached remote id set after a successful Supabase insert. -/
structure EvalSet where
  id : String
  name : String
  setName : Option String
  user_id : Option String
  evaluate_automatically : Bool
  questions : List Question
  timestamp : String
  supabaseId : Option String
deriving DecidableEq, Repr

/-! ## The Transient Record Store (`evaluationsStore`)

`evaluationsStore.items` is a JavaScript `Map` from id strings to records; we
model it as an association list with unique keys, `storeGet` being `Map.get`
and `storeSet` being `Map.set`. -/

/-- The transient store's backing map. -/
abbrev TStore : Type := List (String × EvalSet)

/-- `evaluationsStore.items.get(id)`. -/
def storeGet (st : TStore) (k : String) : Option EvalSet :=
  (List.find? (fun p => p.1 == k) st).map Prod.snd

/-- `evaluationsStore.items.set(id, v)`: overwrite the entry for `k` if
present, else append a new one. -/
def storeSet (st : TStore) (k : String) (v : EvalSet) : TStore :=
  if List.any st (fun p => p.1 == k) then
    List.map (fun p => if p.1 == k then (k, v) else p) st
  else
    st ++ [(k, v)]

/-- `evaluationsStore.addQuestion(setId, questionData)`: push the question
(the caller passes `q` with `timestamp` already filled, mirroring the
`{...questionData, timestamp: ...}` spread) onto the named set; no-op on the
store when the id is unknown (the code returns `null` there and `evaluateSet`
ignores the return value). -/
def addQuestion (st : TStore) (setId : String) (q : Question) : TStore :=
  match storeGet st setId with
  | none => st
  | some s => storeSet st setId { s with questions := s.questions ++ [q] }

/-! ## The Persistent Store (Supabase) oracles -/

/-- Outcome of the `select("id, created_at").eq("id", id).single()` probe used
by `checkEvaluationInSupabase`: a row, the RLS error `PGRST301` (the record
exists but is protected), or any other error / no row. -/
inductive SupaCheck where
  | row
  | rlsError
  | otherError
deriving DecidableEq, Repr

/-- Outcome of a `select("*").eq("id", key).single()` round trip: a row, no
row, or a query error carrying its message. -/
inductive SupaFetch where
  | row (s : EvalSet)
  | noRow
  | queryError (msg : String)
deriving DecidableEq, Repr

/-- A write issued against the Persistent Store: an INSERT of a record
(`saveEvaluationSetToSupabase`) or an UPDATE keyed by `key`
(`update(...).eq("id", key)`). -/
inductive SupaWrite where
  | insert (rec : EvalSet)
  | update (key : String)
deriving DecidableEq, Repr

/-- Is this write an INSERT? -/
def SupaWrite.isInsert : SupaWrite → Bool
  | .insert _ => true
  | .update _ => false

/-- Is this write an UPDATE? -/
def SupaWrite.isUpdate : SupaWrite → Bool
  | .insert _ => false
  | .update _ => true

/-- The Supabase behaviours consulted by the manual-evaluation handler, one
function per kind of round trip.  `insert` models
`saveEvaluationSetToSupabase` (whose payload marshalling and name
sanitisation happen inside the remote call being abstracted): it yields the
freshly generated remote id or the thrown error. -/
structure SupaOracle where
  check : String → SupaCheck
  fetch : String → SupaFetch
  insert : EvalSet → Except JsError String
  update : String → Option JsError

/-- Shallow embedding of `checkEvaluationInSupabase(id)`.  Returns the
JavaScript truthiness of its result (a found/RLS-protected record is truthy,
`null` is falsy) together with the list of keys it sent to the Persistent
Store as direct lookup keys. -/
def checkEvaluationInSupabase (id : String) (check : String → SupaCheck) :
    Bool × List String :=
  if id.isEmpty then (false, [])
  else if !isUuidFormat id then (false, [])
  else
    match check id with
    | .row => (true, [id])
    | .rlsError => (true, [id])
    | .otherError => (false, [id])

/-- Response of the share/get endpoints. -/
inductive GetResp where
  | badRequest (msg : String)
  | notFound (msg : String)
  | ok (set : EvalSet)
deriving DecidableEq, Repr

/-- Shallow embedding of `getEvaluationSetByIdFromSupabase` (the
`GET /share/:id` handler).  Returns the response together with the list of
keys sent to the Persistent Store as direct lookup keys. -/
def getEvaluationSetByIdFromSupabase (id : String) (st : TStore)
    (fetch : String → SupaFetch) : GetResp × List String :=
  if !isUuidFormat id then
    match storeGet st id with
    | some localSet =>
        match localSet.supabaseId with
        | some sid =>
            match fetch sid with
            | .row data => (.ok data, [sid])
            | _ => (.ok localSet, [sid])
        | none => (.ok localSet, [])
    | none => (.notFound "Evaluation not found", [])
  else
    match fetch id with
    | .row data => (.ok data, [id])
    | _ => (.notFound "Evaluation not found", [id])

/-- Shallow embedding of the `module.exports.getEvaluationSet` handler
(`GET /sets/:id`) on its normal path (the `debug=true` diagnostic branch,
which only adds a Supabase comparison payload, is not taken). -/
def getEvaluationSet (id : String) (st : TStore) : GetResp :=
  if id.isEmpty then .badRequest "Missing required parameter (id)"
  else
    match storeGet st id with
    | none => .notFound "Evaluation set not found"
    | some s => .ok s

/-! ## The batch orchestration (`module.exports.evaluateSet`) -/

/-- One `{question, referenceAnswer}` pair of the submitted batch. -/
structure QA where
  question : String
  referenceAnswer : String
deriving DecidableEq, Repr

/-- The JSON body of `POST /evaluate-set`, with `Option` for absent fields. -/
structure EvalSetBody where
  questions : Option (List QA)
  models : Option (List String)
  systemMessage : Option String
  setId : Option String
  name : Option String
  setName : Option String
  evaluateAutomatically : Option Bool
deriving DecidableEq, Repr

/-- The upstream round trips made inside the orchestration loop.
`respond m q sys` is `await getModelResponse(m, q, sys)` — a total function,
since `getModelResponse` converts every failure to an error string — paired
with the measured wall-clock duration `responseEndTime - responseStartTime`;
`judge q ra content` is likewise `await evaluateResponse(q, ra, content)`
(total, see `evaluateResponse`) paired with its duration. -/
structure Upstream where
  respond : String → String → Option String → String × Nat
  judge : String → String → String → JudgeVerdict × Nat

/-- HTTP response of the `evaluateSet` handler. -/
inductive SetResp where
  | badRequest (msg : String)
  | notFound (msg : String)
  | serverError (msg : String)
  | ok (set : EvalSet)
deriving DecidableEq, Repr

/-- The successful payload of a `SetResp`, if any. -/
def SetResp.payload : SetResp → Option EvalSet
  | .ok s => some s
  | _ => none

/-- Everything observable about one run of the `evaluateSet` handler: the
HTTP response, the final transient store, how many responder and judge round
trips were issued, and the Persistent Store writes attempted. -/
structure SetOutcome where
  resp : SetResp
  store : TStore
  responderCalls : Nat
  judgeCalls : Nat
  writes : List SupaWrite
deriving Repr

/-- The Result entry the inner loop pushes for model `m` answering `qa`:
the automatic branch when `auto`, the `pending_manual` branch otherwise. -/
def resultFor (up : Upstream) (auto : Bool) (sys : Option String) (now : String)
    (qa : QA) (m : String) : Result :=
  let (content, rt) := up.respond m qa.question sys
  if auto then
    let (verdict, et) := up.judge qa.question qa.referenceAnswer content
    { model := getDisplayName m, response := content,
      evaluation := { is_correct := some verdict.is_correct,
                      reasoning := some verdict.reasoning,
                      evaluation_type := "automatic",
                      evaluated_at := some now, evaluated_by := none },
      timings := some { responseTime := rt, evaluationTime := et,
                        totalTime := rt + et } }
  else
    { model := getDisplayName m, response := content,
      evaluation := { is_correct := none, reasoning := none,
                      evaluation_type := "pending_manual",
                      evaluated_at := none, evaluated_by := none },
      timings := some { responseTime := rt, evaluationTime := 0,
                        totalTime := rt } }

/-- The inner `for (const modelName of modelNamesToEvaluate)` loop for one
question: the accumulated `questionResultsArray` plus the number of responder
and judge calls issued (one responder call per iteration; one judge call per
iteration exactly when `auto`). -/
def runModelsForQuestion (up : Upstream) (auto : Bool) (sys : Option String)
    (now : String) (qa : QA) : List String → List Result × Nat × Nat
  | [] => ([], 0, 0)
  | m :: rest =>
      let r := resultFor up auto sys now qa m
      let (restResults, rc, jc) := runModelsForQuestion up auto sys now qa rest
      (r :: restResults, rc + 1, jc + (if auto then 1 else 0))

/-- The Question entry appended for `qa` (the `addQuestion` payload plus its
timestamp). -/
def questionFor (up : Upstream) (auto : Bool) (sys : Option String)
    (now : String) (ms : List String) (qa : QA) : Question :=
  { question := qa.question, referenceAnswer := qa.referenceAnswer,
    results := (runModelsForQuestion up auto sys now qa ms).1,
    models := ms, systemMessage := sys, timestamp := now }

/-- The outer `for (const { question, referenceAnswer } of questions)` loop:
threads the transient store through `addQuestion` and accumulates the call
counters. -/
def runQuestions (up : Upstream) (auto : Bool) (sys : Option String)
    (now : String) (setId : String) (ms : List String) :
    List QA → TStore → TStore × Nat × Nat
  | [], st => (st, 0, 0)
  | qa :: rest, st =>
      let (results, rc, jc) := runModelsForQuestion up auto sys now qa ms
      let st1 := addQuestion st setId
        { question := qa.question, referenceAnswer := qa.referenceAnswer,
          results := results, models := ms, systemMessage := sys,
          timestamp := now }
      let (st2, rc2, jc2) := runQuestions up auto sys now setId ms rest st1
      (st2, rc + rc2, jc + jc2)

/-- The `if (setId) { ...get... } else { ...create... }` step of
`evaluateSet`: either look up the existing set (404 if absent) or create a
fresh one (`evaluationsStore.create`) keyed by the generated id.  `user` is
`req.user?.id`. -/
def resolveEvalSet (body : EvalSetBody) (user : Option String) (st : TStore)
    (genId now : String) : Except SetResp (EvalSet × TStore) :=
  if optStrTruthy body.setId then
    match storeGet st (body.setId.getD "") with
    | none => .error (.notFound "Evaluation set not found")
    | some s => .ok (s, st)
  else
    let evalName := jsOrString body.setName (jsOrString body.name "Unnamed Evaluation")
    let uid := match user with
      | some u => if u.isEmpty then none else some u
      | none => none
    let newSet : EvalSet :=
      { id := genId, name := evalName, setName := some evalName,
        user_id := uid,
        evaluate_automatically := body.evaluateAutomatically != some false,
        questions := [], timestamp := now, supabaseId := none }
    .ok (newSet, storeSet st genId newSet)

/-- Shallow embedding of the `module.exports.evaluateSet` handler
(`POST /evaluate-set`).

The handler's opening log line dereferences `questions.length` and
`modelNamesToEvaluate.join(', ')` *before* the validation checks; when either
field is absent that dereference throws a `TypeError`, the outer `catch`
swallows it, and the client receives a 500 — so the explicit
`res.status(400)` branches are reachable only for present-but-empty (or
present-but-ill-typed) fields.

`insertOracle` is the `saveEvaluationSetToSupabase` round trip; its failure
is swallowed (`catch (supabaseError)`), but a success caches the returned
remote id on the record as `supabaseId` (visible in the store and in the
response, both holding the same mutated object). -/
def evaluateSetHandler (body : EvalSetBody) (user : Option String)
    (st : TStore) (up : Upstream) (insertOracle : EvalSet → Except JsError String)
    (genId now : String) : SetOutcome :=
  match body.questions with
  | none =>
      { resp := .serverError "Cannot read properties of undefined (reading 'length')",
        store := st, responderCalls := 0, judgeCalls := 0, writes := [] }
  | some qs =>
    match body.models with
    | none =>
        { resp := .serverError "Cannot read properties of undefined (reading 'join')",
          store := st, responderCalls := 0, judgeCalls := 0, writes := [] }
    | some ms =>
      if qs.isEmpty then
        { resp := .badRequest "Missing or invalid questions array",
          store := st, responderCalls := 0, judgeCalls := 0, writes := [] }
      else if ms.isEmpty then
        { resp := .badRequest "No models specified for evaluation",
          store := st, responderCalls := 0, judgeCalls := 0, writes := [] }
      else
        match resolveEvalSet body user st genId now with
        | .error r =>
            { resp := r, store := st, responderCalls := 0, judgeCalls := 0,
              writes := [] }
        | .ok (evalSet, st0) =>
          let auto := body.evaluateAutomatically != some false
          let (st1, rc, jc) :=
            runQuestions up auto body.systemMessage now evalSet.id ms qs st0
          match storeGet st1 evalSet.id with
          | none =>
              -- `updatedSet` would be `undefined` and `updatedSet.name` would
              -- throw; unreachable on the paths above.
              { resp := .serverError "Cannot read properties of undefined (reading 'name')",
                store := st1, responderCalls := rc, judgeCalls := jc, writes := [] }
          | some updatedSet =>
            let withUid := match user with
              | some u =>
                  if strTruthy u && !optStrTruthy updatedSet.user_id then
                    { updatedSet with user_id := some u }
                  else updatedSet
              | none => updatedSet
            let st2 := storeSet st1 evalSet.id withUid
            match insertOracle withUid with
            | .ok sid =>
                let finalSet := { withUid with supabaseId := some sid }
                { resp := .ok finalSet,
                  store := storeSet st2 evalSet.id finalSet,
                  responderCalls := rc, judgeCalls := jc,
                  writes := [.insert withUid] }
            | .error _ =>
                { resp := .ok withUid, store := st2,
                  responderCalls := rc, judgeCalls := jc,
                  writes := [.insert withUid] }

/-! ## The Manual Evaluation Patch (`manuallyEvaluateResponse`) -/

/-- The JSON body of `POST /sets/:id/evaluate` as read by the handler. -/
structure ManualBody where
  evaluationId : String
  questionIndex : Option Nat
  modelName : String
  isCorrect : Option Bool
  reasoning : Option String
deriving DecidableEq, Repr

/-- HTTP response of the manual-evaluation handler.  `success` carries the
returned `evaluation` object and, on the early non-UUID insert-success path,
the `supabaseId` field of the payload. -/
inductive MEResp where
  | badRequest (msg : String)
  | forbidden (msg : String)
  | notFound (msg : String)
  | serverError (msg : String)
  | success (evaluation : Evaluation) (supabaseId : Option String)
deriving DecidableEq, Repr

/-- The `evaluation` object of a successful manual-evaluation response. -/
def MEResp.evaluation? : MEResp → Option Evaluation
  | .success ev _ => some ev
  | _ => none

/-- The store-resolution step of `manuallyEvaluateResponse`: probe Supabase
with `checkEvaluationInSupabase`; if truthy, fetch the full row from Supabase
(500 on query error, 404 on missing row); otherwise fall back to the
transient store (404 if absent there too).  Yields the record and the
`storedInSupabase` flag. -/
def locateEvalSet (id : String) (st : TStore) (supa : SupaOracle) :
    Except MEResp (EvalSet × Bool) :=
  if (checkEvaluationInSupabase id supa.check).1 then
    match supa.fetch id with
    | .queryError m =>
        .error (.serverError ("Failed to retrieve evaluation data: " ++ m))
    | .noRow => .error (.notFound "Evaluation set not found in Supabase")
    | .row s => .ok (s, true)
  else
    match storeGet st id with
    | none =>
        .error (.notFound "Evaluation set not found in local store or Supabase")
    | some s => .ok (s, false)

/-- The `evaluation` object written by the manual patch:
`reasoning || "Manually evaluated by user."`, `evaluation_type: "manual"`,
`evaluated_by: req.user ? req.user.id : null`. -/
def manualEvaluation (isCorrect : Bool) (reasoning : Option String)
    (user : Option String) (now : String) : Evaluation :=
  { is_correct := some isCorrect,
    reasoning := some (jsOrString reasoning "Manually evaluated by user."),
    evaluation_type := "manual",
    evaluated_by := user,
    evaluated_at := some now }

/-- `question.results.find(r => r.model === modelName)` followed by the
in-place overwrite of that result's `evaluation`: replace the evaluation of
the first result whose `model` equals `name`, leaving everything else
untouched. -/
def setFirstMatching (name : String) (ev : Evaluation) :
    List Result → List Result
  | [] => []
  | r :: rest =>
      if r.model == name then { r with evaluation := ev } :: rest
      else r :: setFirstMatching name ev rest

/-- Steps 5–7 of the manual patch, after the in-memory record has been
mutated: the unconditional `evaluationsStore.items.set`, then the
Persistent Store reconciliation —
for a non-UUID id an unconditional INSERT attempt (on success: cache the
new remote id, re-store, and return early with it in the payload; on throw:
fall through); then, when the record came from Supabase, an UPDATE keyed by
the request id; otherwise an INSERT when no `supabaseId` is cached, else an
UPDATE keyed by the cached `supabaseId` — every reconciliation failure being
swallowed.  Returns the response, the final transient store, and the
Persistent Store writes attempted. -/
def persistManualPatch (id : String) (patched : EvalSet) (newEval : Evaluation)
    (storedInSupabase : Bool) (st : TStore) (supa : SupaOracle) :
    MEResp × TStore × List SupaWrite :=
  let st1 := storeSet st id patched
  if !isUuidFormat id then
    match supa.insert patched with
    | .ok sid =>
        let withSid := { patched with supabaseId := some sid }
        (.success newEval (some sid), storeSet st1 id withSid,
         [.insert patched])
    | .error _ =>
        -- the insert threw; fall through (storedInSupabase is false here)
        match patched.supabaseId with
        | none =>
            match supa.insert patched with
            | .ok sid =>
                let withSid := { patched with supabaseId := some sid }
                (.success newEval none, storeSet st1 id withSid,
                 [.insert patched, .insert patched])
            | .error _ =>
                (.success newEval none, st1, [.insert patched, .insert patched])
        | some sid =>
            (.success newEval none, st1, [.insert patched, .update sid])
  else if storedInSupabase then
    (.success newEval none, st1, [.update id])
  else
    match patched.supabaseId with
    | none =>
        match supa.insert patched with
        | .ok sid =>
            let withSid := { patched with supabaseId := some sid }
            (.success newEval none, storeSet st1 id withSid, [.insert patched])
        | .error _ => (.success newEval none, st1, [.insert patched])
    | some sid => (.success newEval none, st1, [.update sid])

/-- Shallow embedding of the `manuallyEvaluateResponse` handler
(`POST /sets/:id/evaluate`).  `user` is `req.user?.id` (the route runs behind
`requireAuth`, but anonymous callers are modelled too).  Returns the HTTP
response, the final transient store, and the Persistent Store writes
attempted. -/
def manuallyEvaluateResponse (body : ManualBody) (user : Option String)
    (st : TStore) (supa : SupaOracle) (now : String) :
    MEResp × TStore × List SupaWrite :=
  match body.questionIndex, body.isCorrect with
  | some idx, some isCorrect =>
    if !strTruthy body.evaluationId || !strTruthy body.modelName then
      (.badRequest "Missing required fields (evaluationId, questionIndex, modelName, isCorrect)",
       st, [])
    else
      match locateEvalSet body.evaluationId st supa with
      | .error r => (r, st, [])
      | .ok (evaluationSet, storedInSupabase) =>
        if (match user, evaluationSet.user_id with
            | some u, some a => strTruthy a && u != a
            | _, _ => false) then
          (.forbidden "You are not authorized to evaluate this set", st, [])
        else
          match evaluationSet.questions[idx]? with
          | none => (.notFound "Question not found in evaluation set", st, [])
          | some question =>
            match question.results.find? (fun r => r.model == body.modelName) with
            | none => (.notFound "Model result not found for this question", st, [])
            | some _ =>
              let newEval := manualEvaluation isCorrect body.reasoning user now
              let patched : EvalSet :=
                { evaluationSet with
                  questions := evaluationSet.questions.set idx
                    { question with
                      results := setFirstMatching body.modelName newEval
                        question.results } }
              persistManualPatch body.evaluationId patched newEval
                storedInSupabase st supa
  | _, _ =>
      (.badRequest "Missing required fields (evaluationId, questionIndex, modelName, isCorrect)",
       st, [])

/-! ## Concrete fixtures used by witnesses and counterexamples -/

/-- A deterministic upstream oracle: every responder call answers `"ans"` in
5 ms, every judge call returns `{is_correct: true}` in 3 ms. -/
def upFx : Upstream := ⟨fun _ _ _ => ("ans", 5), fun _ _ _ => (⟨true, "r"⟩, 3)⟩

/-- A Supabase insert that always throws. -/
def insFailFx : EvalSet → Except JsError String :=
  fun _ => .error ⟨"supabase down", none, none⟩

/-- An existing transient set with one question already recorded. -/
def oldQuestionFx : Question := ⟨"old", "a", [], [], none, "t0"⟩

/-- The set holding `oldQuestionFx`, keyed by a transient-shaped id. -/
def existingSetFx : EvalSet :=
  ⟨"existing00", "E", none, none, true, [oldQuestionFx], "t0", none⟩

/-- A store holding `existingSetFx`. -/
def existingStoreFx : TStore := [("existing00", existingSetFx)]

/-- A batch body that reuses `existingSetFx` via `setId` and leaves
`evaluateAutomatically` absent. -/
def reuseBodyFx : EvalSetBody :=
  ⟨some [⟨"q1", "r1"⟩], some ["gpt41"], none, some "existing00", none, none, none⟩

/-- A batch body that creates a fresh set with automatic evaluation. -/
def freshBodyFx : EvalSetBody :=
  ⟨some [⟨"q1", "r1"⟩], some ["gpt41"], none, none, some "My Set", none, some true⟩

/-- The set `resolveEvalSet` creates for `freshBodyFx` under id `"gid00"` at
time `"t1"`. -/
def freshInitFx : EvalSet :=
  ⟨"gid00", "My Set", some "My Set", none, true, [], "t1", none⟩

/-- A batch body that creates a fresh set with `evaluateAutomatically: false`. -/
def pendingBodyFx : EvalSetBody :=
  ⟨some [⟨"q1", "r1"⟩], some ["gpt41"], none, none, some "My Set", none, some false⟩

/-- The set `resolveEvalSet` creates for `pendingBodyFx`. -/
def pendingInitFx : EvalSet :=
  ⟨"gid00", "My Set", some "My Set", none, false, [], "t1", none⟩

/-- A stored result for display name `"GPT-4.1"`. -/
def manualResultFx : Result :=
  ⟨"GPT-4.1", "resp", ⟨some true, some "auto", "automatic", some "t0", none⟩,
   some ⟨5, 3, 8⟩⟩

/-- A stored question holding `manualResultFx`. -/
def manualQuestionFx : Question := ⟨"q1", "r1", [manualResultFx], ["gpt41"], none, "t0"⟩

/-- An unowned transient set holding `manualQuestionFx`. -/
def manualSetFx : EvalSet :=
  ⟨"abc123", "E", none, none, true, [manualQuestionFx], "t0", none⟩

/-- A store holding `manualSetFx`. -/
def manualStoreFx : TStore := [("abc123", manualSetFx)]

/-- A Supabase oracle whose reads find nothing and whose writes fail. -/
def supaIdleFx : SupaOracle :=
  ⟨fun _ => .otherError, fun _ => .noRow,
   fun _ => .error ⟨"down", none, none⟩, fun _ => none⟩

/-- A manual-verdict body addressing `manualSetFx`. -/
def manualBodyFx : ManualBody :=
  ⟨"abc123", some 0, "GPT-4.1", some false, some "wrong answer"⟩

/-- `manualSetFx` owned by identity `"alice"`. -/
def ownedSetFx : EvalSet := { manualSetFx with user_id := some "alice" }

/-- A store holding `ownedSetFx`. -/
def ownedStoreFx : TStore := [("abc123", ownedSetFx)]

/-- `manualSetFx` with a cached remote id from an earlier sync. -/
def cachedSetFx : EvalSet :=
  { manualSetFx with supabaseId := some "11111111-1111-1111-1111-111111111111" }

/-- A store holding `cachedSetFx`. -/
def cachedStoreFx : TStore := [("abc123", cachedSetFx)]

/-- A Supabase oracle whose reads find nothing and whose insert succeeds with
a fresh remote id. -/
def supaInsertOkFx : SupaOracle :=
  ⟨fun _ => .otherError, fun _ => .noRow,
   fun _ => .ok "22222222-2222-2222-2222-222222222222", fun _ => none⟩

/-- A batch body with `questions` absent (only `models` supplied). -/
def noQBodyFx : EvalSetBody := ⟨none, some ["gpt41"], none, none, none, none, none⟩

/-- A batch body with an empty `questions` array. -/
def emptyQBodyFx : EvalSetBody := ⟨some [], some ["gpt41"], none, none, none, none, none⟩

/-! ## Helper lemmas about the transient store -/

theorem find?_map_replace (k : String) (v : EvalSet) :
    ∀ st : TStore, List.any st (fun p => p.1 == k) = true →
      List.find? (fun p => p.1 == k)
          (List.map (fun p => if p.1 == k then (k, v) else p) st) = some (k, v) := by
  intro st
  induction st with
  | nil => simp
  | cons p rest ih =>
      intro h
      by_cases hp : p.1 = k
      · simp [hp]
      · have hrest : List.any rest (fun p => p.1 == k) = true := by
          simpa [List.any_cons, hp] using h
        simpa [hp] using ih hrest

theorem find?_append_fresh (k : String) (v : EvalSet) :
    ∀ st : TStore, List.any st (fun p => p.1 == k) = false →
      List.find? (fun p => p.1 == k) (st ++ [(k, v)]) = some (k, v) := by
  intro st
  induction st with
  | nil => simp
  | cons p rest ih =>
      intro h
      have hp : ¬(p.1 = k) := by
        intro hk
        simp [List.any_cons, hk] at h
      have hrest : List.any rest (fun p => p.1 == k) = false := by
        simpa [List.any_cons, hp] using h
      simpa [hp] using ih hrest

theorem storeGet_storeSet_self (st : TStore) (k : String) (v : EvalSet) :
    storeGet (storeSet st k v) k = some v := by
  unfold storeGet storeSet
  by_cases h : List.any st (fun p => p.1 == k)
  · rw [if_pos h, find?_map_replace k v st h]
    rfl
  · have h' : List.any st (fun p => p.1 == k) = false := Bool.eq_false_iff.mpr h
    rw [if_neg h, find?_append_fresh k v st h']
    rfl

theorem addQuestion_of_get (st : TStore) (k : String) (s : EvalSet) (q : Question)
    (h : storeGet st k = some s) :
    addQuestion st k q = storeSet st k { s with questions := s.questions ++ [q] } := by
  unfold addQuestion
  rw [h]

/-! ## Helper lemmas about the orchestration loop -/

theorem runModelsForQuestion_eq (up : Upstream) (auto : Bool)
    (sys : Option String) (now : String) (qa : QA) (ms : List String) :
    runModelsForQuestion up auto sys now qa ms =
      (ms.map (resultFor up auto sys now qa), ms.length,
       if auto then ms.length else 0) := by
  induction ms with
  | nil => simp [runModelsForQuestion]
  | cons m rest ih =>
      simp only [runModelsForQuestion, ih, List.map_cons, List.length_cons]
      cases auto <;> simp

theorem questionFor_results (up : Upstream) (auto : Bool) (sys : Option String)
    (now : String) (ms : List String) (qa : QA) :
    (questionFor up auto sys now ms qa).results =
      ms.map (resultFor up auto sys now qa) := by
  simp [questionFor, runModelsForQuestion_eq]

theorem runQuestions_cons (up : Upstream) (auto : Bool) (sys : Option String)
    (now setId : String) (ms : List String) (qa : QA) (rest : List QA)
    (st : TStore) :
    runQuestions up auto sys now setId ms (qa :: rest) st =
      ((runQuestions up auto sys now setId ms rest
          (addQuestion st setId (questionFor up auto sys now ms qa))).1,
       ms.length + (runQuestions up auto sys now setId ms rest
          (addQuestion st setId (questionFor up auto sys now ms qa))).2.1,
       (if auto then ms.length else 0) +
         (runQuestions up auto sys now setId ms rest
            (addQuestion st setId (questionFor up auto sys now ms qa))).2.2) := by
  simp only [runQuestions, runModelsForQuestion_eq, questionFor]

theorem runQuestions_spec (up : Upstream) (auto : Bool) (sys : Option String)
    (now setId : String) (ms : List String) (qas : List QA) (st : TStore)
    (s : EvalSet) (h : storeGet st setId = some s) :
    storeGet (runQuestions up auto sys now setId ms qas st).1 setId =
        some { s with questions :=
                 s.questions ++ qas.map (questionFor up auto sys now ms) } ∧
      (runQuestions up auto sys now setId ms qas st).2.1 =
        qas.length * ms.length ∧
      (runQuestions up auto sys now setId ms qas st).2.2 =
        (if auto then qas.length * ms.length else 0) := by
  induction qas generalizing st s with
  | nil =>
      refine ⟨?_, by simp [runQuestions], by simp [runQuestions]⟩
      simpa [runQuestions] using h
  | cons qa rest ih =>
      have hadd := addQuestion_of_get st setId s
        (questionFor up auto sys now ms qa) h
      have hget := storeGet_storeSet_self st setId
        { s with questions := s.questions ++ [questionFor up auto sys now ms qa] }
      have ihs := ih (addQuestion st setId (questionFor up auto sys now ms qa))
        { s with questions := s.questions ++ [questionFor up auto sys now ms qa] }
        (by rw [hadd]; exact hget)
      rw [runQuestions_cons]
      refine ⟨?_, ?_, ?_⟩
      · rw [ihs.1]
        simp [List.append_assoc]
      · rw [ihs.2.1]
        simp [List.length_cons, Nat.succ_mul, Nat.add_comm]
      · rw [ihs.2.2]
        cases auto <;> simp [List.length_cons, Nat.succ_mul, Nat.add_comm]

/-! ## C2 — the Model Responder never raises and formats failures as data -/

/-- C2: `getModelResponse` never raises to its caller (it is a total function
of the registry lookup and the upstream call outcome): an unknown short id
yields the descriptive "not supported" string; a failed call yields
`"Error getting response from {shortId} via OpenRouter: {message}"` where the
message prefers `error.response.data.error.message`, then
`error.error.message`, over the generic `error.message`; a successful call
yields the trimmed answer text. -/
theorem getModelResponse_spec (modelName : String) (call : Except JsError String) :
    (getOpenRouterSlug modelName = none →
      getModelResponse modelName call =
        "Model " ++ modelName ++ " not supported via OpenRouter in this configuration.") ∧
    (∀ s, getOpenRouterSlug modelName ≠ none → call = .ok s →
      getModelResponse modelName call = jsTrim s) ∧
    (∀ e, getOpenRouterSlug modelName ≠ none → call = .error e →
      getModelResponse modelName call =
        "Error getting response from " ++ modelName ++ " via OpenRouter: "
          ++ extractErrorMessage e) ∧
    (∀ e m, e.responseDataErrorMessage = some m → strTruthy m = true →
      extractErrorMessage e = m) ∧
    (∀ e m, e.responseDataErrorMessage = none → e.errorErrorMessage = some m →
      strTruthy m = true → extractErrorMessage e = m) ∧
    (∀ e, e.responseDataErrorMessage = none → e.errorErrorMessage = none →
      extractErrorMessage e = e.message) := by
  refine ⟨?_, ?_, ?_, ?_, ?_, ?_⟩
  · intro h
    simp [getModelResponse, h]
  · intro s hslug hc
    cases hs : getOpenRouterSlug modelName with
    | none => exact absurd hs hslug
    | some sl => simp [getModelResponse, hs, hc]
  · intro e hslug hc
    cases hs : getOpenRouterSlug modelName with
    | none => exact absurd hs hslug
    | some sl => simp [getModelResponse, hs, hc]
  · intro e m h1 h2
    simp [extractErrorMessage, h1, h2]
  · intro e m h1 h2 h3
    simp [extractErrorMessage, h1, h2, h3]
  · intro e h1 h2
    simp [extractErrorMessage, h1, h2]

/-- Witness for C2 at concrete inputs. -/
theorem getModelResponse_spec_witness :
    getModelResponse "o3" (.ok "x") =
      "Model o3 not supported via OpenRouter in this configuration." ∧
    getModelResponse "gpt41" (.ok " hi ") = "hi" ∧
    getModelResponse "gpt41" (.error ⟨"generic", some "nested", some "mid"⟩) =
      "Error getting response from gpt41 via OpenRouter: nested" ∧
    extractErrorMessage ⟨"generic", none, some "mid"⟩ = "mid" ∧
    extractErrorMessage ⟨"generic", none, none⟩ = "generic" := by
  refine ⟨?_, ?_, ?_, ?_, ?_⟩
  · exact (getModelResponse_spec "o3" (.ok "x")).1 (by decide)
  · rw [(getModelResponse_spec "gpt41" (.ok " hi ")).2.1 " hi " (by decide) rfl]
    decide
  · rw [(getModelResponse_spec "gpt41"
        (.error ⟨"generic", some "nested", some "mid"⟩)).2.2.1
        ⟨"generic", some "nested", some "mid"⟩ (by decide) rfl]
    rw [(getModelResponse_spec "gpt41"
        (.error ⟨"generic", some "nested", some "mid"⟩)).2.2.2.1
        ⟨"generic", some "nested", some "mid"⟩ "nested" rfl (by decide)]
    decide
  · exact (getModelResponse_spec "gpt41" (.ok "x")).2.2.2.2.1
      ⟨"generic", none, some "mid"⟩ "mid" rfl rfl (by decide)
  · exact (getModelResponse_spec "gpt41" (.ok "x")).2.2.2.2.2
      ⟨"generic", none, none⟩ rfl rfl

/-! ## C3 — the Judge Evaluator never raises and falls back on any failure -/

/-- C3: `evaluateResponse` never raises (it is a total function of the
upstream call outcome and the JSON parse outcome): on a thrown call it
returns exactly `{is_correct: false, reasoning: "Error during evaluation."}`;
on a JSON parse failure likewise; otherwise it returns the parsed
`{is_correct, reasoning}` object. -/
theorem evaluateResponse_spec (q ra mr : String)
    (call : String → Except JsError String)
    (parse : String → Option JudgeVerdict) :
    (∀ e, call (renderJudgePrompt q ra mr) = .error e →
      evaluateResponse q ra mr call parse = judgeFallback) ∧
    (∀ c, call (renderJudgePrompt q ra mr) = .ok c → parse c = none →
      evaluateResponse q ra mr call parse = judgeFallback) ∧
    (∀ c r, call (renderJudgePrompt q ra mr) = .ok c → parse c = some r →
      evaluateResponse q ra mr call parse = r) ∧
    judgeFallback =
      { is_correct := false, reasoning := "Error during evaluation." } := by
  refine ⟨?_, ?_, ?_, rfl⟩
  · intro e hc
    simp [evaluateResponse, hc]
  · intro c hc hp
    simp [evaluateResponse, hc, hp]
  · intro c r hc hp
    simp [evaluateResponse, hc, hp]

/-- Witness for C3 at concrete inputs. -/
theorem evaluateResponse_spec_witness :
    evaluateResponse "q" "a" "m" (fun _ => .error ⟨"boom", none, none⟩)
        (fun _ => some ⟨true, "r"⟩) = judgeFallback ∧
    evaluateResponse "q" "a" "m" (fun _ => .ok "notjson") (fun _ => none) =
      judgeFallback ∧
    evaluateResponse "q" "a" "m" (fun _ => .ok "body")
        (fun _ => some ⟨true, "matches"⟩) = ⟨true, "matches"⟩ := by
  refine ⟨?_, ?_, ?_⟩
  · exact (evaluateResponse_spec "q" "a" "m" _ _).1 ⟨"boom", none, none⟩ rfl
  · exact (evaluateResponse_spec "q" "a" "m" _ _).2.1 "notjson" rfl rfl
  · exact (evaluateResponse_spec "q" "a" "m" _ _).2.2.1 "body" ⟨true, "matches"⟩ rfl rfl

/-! ## C10 — generated transient ids can never look like UUIDs -/

theorem base36Char_allowed (d : Fin 36) :
    ((base36Char d).isDigit ||
      (decide ('a' ≤ base36Char d) && decide (base36Char d ≤ 'z'))) = true := by
  revert d
  decide

theorem base36Char_ne_hyphen (d : Fin 36) : base36Char d ≠ '-' := by
  revert d
  decide

theorem noHyphen_not_uuid (s : String) (h : ∀ c ∈ s.data, c ≠ '-') :
    isUuidFormat s = false := by
  by_contra hcon
  rw [Bool.not_eq_false] at hcon
  unfold isUuidFormat at hcon
  rw [Bool.and_eq_true] at hcon
  obtain ⟨hlen, hall⟩ := hcon
  rw [List.all_eq_true] at hall
  have hlen' : s.data.length = 36 := by simpa using hlen
  have h8 := hall 8 (by decide)
  simp only [Nat.reduceBEq, Bool.or_self, Bool.or_false, if_true, beq_iff_eq] at h8
  have hlt : 8 < s.data.length := by omega
  rw [List.getD_eq_getElem s.data ' ' hlt] at h8
  exact h (s.data[8]) (List.getElem_mem hlt) h8

/-- C10: every id produced by `evaluationsStore.generateId` consists solely
of base-36 digit characters (digits and lowercase letters, never a hyphen),
so it can never pass the UUID shape test — a freshly created transient record
is always classified as transient-store-native by the identifier-shape
routing. -/
theorem generateId_neverUuid (r1 r2 : List (Fin 36)) :
    isUuidFormat (generateId r1 r2) = false ∧
    (generateId r1 r2).data.all
      (fun c => c.isDigit || (decide ('a' ≤ c) && decide (c ≤ 'z'))) = true := by
  have hdata : (generateId r1 r2).data =
      ((r1.take 13).map base36Char) ++ ((r2.take 13).map base36Char) := rfl
  have hmem : ∀ c ∈ (generateId r1 r2).data, ∃ d : Fin 36, c = base36Char d := by
    intro c hc
    rw [hdata] at hc
    rcases List.mem_append.mp hc with hc | hc <;>
      · obtain ⟨d, _, rfl⟩ := List.mem_map.mp hc
        exact ⟨d, rfl⟩
  constructor
  · apply noHyphen_not_uuid
    intro c hc
    obtain ⟨d, rfl⟩ := hmem c hc
    exact base36Char_ne_hyphen d
  · rw [List.all_eq_true]
    intro c hc
    obtain ⟨d, rfl⟩ := hmem c hc
    exact base36Char_allowed d

/-! ## C9 — identifier-space routing -/

theorem isUuid_not_isEmpty (id : String) (h : isUuidFormat id = true) :
    id.isEmpty = false := by
  cases he : id.isEmpty
  · rfl
  · have : id = "" := (String.isEmpty_iff id).mp he
    subst this
    exact absurd h (by decide)

/-- C9: a UUID-shaped identifier is always sent to the Persistent Store as
the direct lookup key (by both `checkEvaluationInSupabase` and the share
fetch); a non-UUID-shaped identifier is never sent as a direct lookup key —
the only key the share fetch may send in its place is the record's cached
remote id (`supabaseId`). -/
theorem identifierSpaceRouting (id : String) (st : TStore)
    (check : String → SupaCheck) (fetch : String → SupaFetch) :
    (isUuidFormat id = true →
      (checkEvaluationInSupabase id check).2 = [id] ∧
      (getEvaluationSetByIdFromSupabase id st fetch).2 = [id]) ∧
    (isUuidFormat id = false →
      (checkEvaluationInSupabase id check).2 = [] ∧
      ∀ k ∈ (getEvaluationSetByIdFromSupabase id st fetch).2,
        ∃ s, storeGet st id = some s ∧ s.supabaseId = some k) := by
  constructor
  · intro h
    have hne := isUuid_not_isEmpty id h
    constructor
    · cases hcq : check id <;>
        simp [checkEvaluationInSupabase, hne, h, hcq]
    · cases hf : fetch id <;>
        simp [getEvaluationSetByIdFromSupabase, h, hf]
  · intro h
    constructor
    · by_cases he : id.isEmpty <;> simp [checkEvaluationInSupabase, he, h]
    · intro k hk
      cases hg : storeGet st id with
      | none =>
          simp [getEvaluationSetByIdFromSupabase, h, hg] at hk
      | some ls =>
          cases hsid : ls.supabaseId with
          | none =>
              simp [getEvaluationSetByIdFromSupabase, h, hg, hsid] at hk
          | some sid =>
              cases hf : fetch sid <;>
                simp [getEvaluationSetByIdFromSupabase, h, hg, hsid, hf] at hk <;>
                subst hk <;> exact ⟨ls, rfl, hsid⟩

/-- Witness for C9: a UUID-shaped id and a transient-shaped id, against a
store holding a record with a cached remote id. -/
theorem identifierSpaceRouting_witness :
    (checkEvaluationInSupabase "123e4567-e89b-12d3-a456-426614174000"
        (fun _ => SupaCheck.row)).2 = ["123e4567-e89b-12d3-a456-426614174000"] ∧
    (getEvaluationSetByIdFromSupabase "123e4567-e89b-12d3-a456-426614174000"
        [] (fun _ => SupaFetch.noRow)).2 =
      ["123e4567-e89b-12d3-a456-426614174000"] ∧
    (checkEvaluationInSupabase "abc123" (fun _ => SupaCheck.row)).2 = [] := by
  refine ⟨?_, ?_, ?_⟩
  · exact ((identifierSpaceRouting "123e4567-e89b-12d3-a456-426614174000" []
      (fun _ => SupaCheck.row) (fun _ => SupaFetch.noRow)).1 (by decide)).1
  · exact ((identifierSpaceRouting "123e4567-e89b-12d3-a456-426614174000" []
      (fun _ => SupaCheck.row) (fun _ => SupaFetch.noRow)).1 (by decide)).2
  · exact ((identifierSpaceRouting "abc123" []
      (fun _ => SupaCheck.row) (fun _ => SupaFetch.noRow)).2 (by decide)).1

/-! ## The shared behaviour of a validated `evaluateSet` run -/

theorem evaluateSetHandler_ok_spec (body : EvalSetBody) (user : Option String)
    (st : TStore) (up : Upstream) (ins : EvalSet → Except JsError String)
    (genId now : String) (qs : List QA) (ms : List String) (init : EvalSet)
    (st0 : TStore)
    (hq : body.questions = some qs) (hm : body.models = some ms)
    (hqne : qs ≠ []) (hmne : ms ≠ [])
    (hres : resolveEvalSet body user st genId now = .ok (init, st0))
    (hkey : storeGet st0 init.id = some init) :
    ∃ finalSet,
      (evaluateSetHandler body user st up ins genId now).resp = .ok finalSet ∧
      finalSet.questions = init.questions ++
        qs.map (questionFor up (body.evaluateAutomatically != some false)
          body.systemMessage now ms) ∧
      finalSet.questions.length = init.questions.length + qs.length ∧
      (evaluateSetHandler body user st up ins genId now).responderCalls =
        qs.length * ms.length ∧
      (evaluateSetHandler body user st up ins genId now).judgeCalls =
        (if body.evaluateAutomatically != some false
         then qs.length * ms.length else 0) := by
  have hrq := runQuestions_spec up (body.evaluateAutomatically != some false)
    body.systemMessage now init.id ms qs st0 init hkey
  have hqe : qs.isEmpty = false := by
    cases qs with
    | nil => exact absurd rfl hqne
    | cons _ _ => rfl
  have hme : ms.isEmpty = false := by
    cases ms with
    | nil => exact absurd rfl hmne
    | cons _ _ => rfl
  simp only [evaluateSetHandler, hq, hm, hqe, hme, hres, Bool.false_eq_true,
    if_false]
  rw [hrq.1]
  cases user with
  | none =>
      cases hins : ins { init with
          questions := init.questions ++
            qs.map (questionFor up (body.evaluateAutomatically != some false)
              body.systemMessage now ms) } with
      | ok sid =>
          simp only [hins]
          exact ⟨_, rfl, rfl, by simp, hrq.2.1, hrq.2.2⟩
      | error e =>
          simp only [hins]
          exact ⟨_, rfl, rfl, by simp, hrq.2.1, hrq.2.2⟩
  | some u =>
      by_cases hu : (strTruthy u &&
          !optStrTruthy ({ init with
            questions := init.questions ++
              qs.map (questionFor up (body.evaluateAutomatically != some false)
                body.systemMessage now ms) } : EvalSet).user_id) = true
      · simp only [hu, if_true]
        cases hins : ins { init with
            user_id := some u,
            questions := init.questions ++
              qs.map (questionFor up (body.evaluateAutomatically != some false)
                body.systemMessage now ms) } with
        | ok sid =>
            simp only [hins]
            exact ⟨_, rfl, rfl, by simp, hrq.2.1, hrq.2.2⟩
        | error e =>
            simp only [hins]
            exact ⟨_, rfl, rfl, by simp, hrq.2.1, hrq.2.2⟩
      · simp only [Bool.not_eq_true] at hu
        simp only [hu, Bool.false_eq_true, if_false]
        cases hins : ins { init with
            questions := init.questions ++
              qs.map (questionFor up (body.evaluateAutomatically != some false)
                body.systemMessage now ms) } with
        | ok sid =>
            simp only [hins]
            exact ⟨_, rfl, rfl, by simp, hrq.2.1, hrq.2.2⟩
        | error e =>
            simp only [hins]
            exact ⟨_, rfl, rfl, by simp, hrq.2.1, hrq.2.2⟩

/-! ## C1 — the batch appends Q questions × M results and issues Q×M calls -/

/-- C1 (amended): a validated batch of Q questions and M models *appends*
exactly Q Question entries in submitted order (so the returned set holds
exactly Q when the run created a fresh set, and the pre-existing questions
followed by the Q new ones when `setId` named an existing set), each new
entry holding exactly M Result entries in submitted model order; the run
issues exactly Q×M responder calls, plus exactly Q×M judge calls when the
effective automatic flag is on (`evaluateAutomatically !== false`, the
default when the field is absent) and 0 judge calls otherwise — the counts
are independent of the upstream oracle, i.e. no retries and no skipping on
per-call failure. -/
theorem evaluateSet_appendsBatch (body : EvalSetBody) (user : Option String)
    (st : TStore) (up : Upstream) (ins : EvalSet → Except JsError String)
    (genId now : String) (qs : List QA) (ms : List String) (init : EvalSet)
    (st0 : TStore)
    (hq : body.questions = some qs) (hm : body.models = some ms)
    (hqne : qs ≠ []) (hmne : ms ≠ [])
    (hres : resolveEvalSet body user st genId now = .ok (init, st0))
    (hkey : storeGet st0 init.id = some init) :
    ∃ finalSet,
      (evaluateSetHandler body user st up ins genId now).resp = .ok finalSet ∧
      finalSet.questions = init.questions ++
        qs.map (questionFor up (body.evaluateAutomatically != some false)
          body.systemMessage now ms) ∧
      finalSet.questions.length = init.questions.length + qs.length ∧
      (∀ qa, (questionFor up (body.evaluateAutomatically != some false)
          body.systemMessage now ms qa).results =
        ms.map (resultFor up (body.evaluateAutomatically != some false)
          body.systemMessage now qa)) ∧
      (evaluateSetHandler body user st up ins genId now).responderCalls =
        qs.length * ms.length ∧
      (evaluateSetHandler body user st up ins genId now).judgeCalls =
        (if body.evaluateAutomatically != some false
         then qs.length * ms.length else 0) := by
  obtain ⟨f, h1, h2, h3, h4, h5⟩ := evaluateSetHandler_ok_spec body user st up
    ins genId now qs ms init st0 hq hm hqne hmne hres hkey
  exact ⟨f, h1, h2, h3,
    fun qa => questionFor_results up (body.evaluateAutomatically != some false)
      body.systemMessage now ms qa, h4, h5⟩

/-- C1 counterexample: reusing an existing one-question set via `setId` with
a batch of Q = 1 question and M = 1 model and `evaluateAutomatically`
absent, the returned set holds 2 Question entries (not exactly Q = 1), and
1 judge call is issued although `evaluateAutomatically` is not `true` (the
claim's "otherwise" branch predicts 0). -/
theorem evaluateSet_exactQ_counterexample :
    ((evaluateSetHandler reuseBodyFx none existingStoreFx upFx insFailFx
        "gen0" "now").resp.payload.map (fun f => f.questions.length)) = some 2 ∧
    (evaluateSetHandler reuseBodyFx none existingStoreFx upFx insFailFx
        "gen0" "now").judgeCalls = 1 ∧
    ¬(((evaluateSetHandler reuseBodyFx none existingStoreFx upFx insFailFx
          "gen0" "now").resp.payload.map (fun f => f.questions.length)) = some 1 ∧
      (evaluateSetHandler reuseBodyFx none existingStoreFx upFx insFailFx
          "gen0" "now").judgeCalls = 0) := by
  decide

/-- Witness for C1 (amended) on a fresh-set batch of 1 question × 1 model. -/
theorem evaluateSet_appendsBatch_witness :
    ∃ finalSet,
      (evaluateSetHandler freshBodyFx none [] upFx insFailFx "gid00" "t1").resp =
        .ok finalSet ∧
      finalSet.questions.length = 1 ∧
      (evaluateSetHandler freshBodyFx none [] upFx insFailFx "gid00" "t1").responderCalls = 1 ∧
      (evaluateSetHandler freshBodyFx none [] upFx insFailFx "gid00" "t1").judgeCalls = 1 := by
  obtain ⟨f, h1, _, h3, _, h5, h6⟩ := evaluateSet_appendsBatch freshBodyFx none
    [] upFx insFailFx "gid00" "t1" [⟨"q1", "r1"⟩] ["gpt41"] freshInitFx
    [("gid00", freshInitFx)] rfl rfl (by decide) (by decide) rfl (by decide)
  exact ⟨f, h1, by rw [h3]; decide, by rw [h5]; decide, by rw [h6]; decide⟩

/-! ## C4 — a non-automatic batch stores pending-manual results, no judge -/

/-- C4: on a validated batch with `evaluateAutomatically: false`, no judge
call is made, and every Result entry produced carries the pending-manual
evaluation (`evaluation_type: "pending_manual"`, `is_correct: null`,
`reasoning: null`) with `evaluationTime = 0` and
`totalTime = responseTime`. -/
theorem evaluateSet_manualPending (body : EvalSetBody) (user : Option String)
    (st : TStore) (up : Upstream) (ins : EvalSet → Except JsError String)
    (genId now : String) (qs : List QA) (ms : List String) (init : EvalSet)
    (st0 : TStore)
    (hq : body.questions = some qs) (hm : body.models = some ms)
    (hqne : qs ≠ []) (hmne : ms ≠ [])
    (hres : resolveEvalSet body user st genId now = .ok (init, st0))
    (hkey : storeGet st0 init.id = some init)
    (hauto : body.evaluateAutomatically = some false) :
    (evaluateSetHandler body user st up ins genId now).judgeCalls = 0 ∧
    ∃ finalSet,
      (evaluateSetHandler body user st up ins genId now).resp = .ok finalSet ∧
      finalSet.questions = init.questions ++
        qs.map (questionFor up false body.systemMessage now ms) ∧
      ∀ qa, ∀ r ∈ (questionFor up false body.systemMessage now ms qa).results,
        r.evaluation = ⟨none, none, "pending_manual", none, none⟩ ∧
        ∃ t, r.timings = some t ∧ t.evaluationTime = 0 ∧
          t.totalTime = t.responseTime := by
  have hbne : (body.evaluateAutomatically != some false) = false := by
    simp [hauto]
  obtain ⟨f, h1, h2, _, _, h5⟩ := evaluateSetHandler_ok_spec body user st up
    ins genId now qs ms init st0 hq hm hqne hmne hres hkey
  rw [hbne] at h2 h5
  refine ⟨by rw [h5]; simp, f, h1, h2, ?_⟩
  intro qa r hr
  rw [questionFor_results] at hr
  obtain ⟨m, _, rfl⟩ := List.mem_map.mp hr
  refine ⟨by simp [resultFor], ?_⟩
  exact ⟨⟨(up.respond m qa.question body.systemMessage).2, 0,
    (up.respond m qa.question body.systemMessage).2⟩, by simp [resultFor],
    rfl, rfl⟩

/-- Witness for C4 on a fresh-set batch with `evaluateAutomatically: false`. -/
theorem evaluateSet_manualPending_witness :
    (evaluateSetHandler pendingBodyFx none [] upFx insFailFx "gid00" "t1").judgeCalls = 0 ∧
    ∃ finalSet,
      (evaluateSetHandler pendingBodyFx none [] upFx insFailFx "gid00" "t1").resp =
        .ok finalSet ∧
      finalSet.questions.length = 1 := by
  obtain ⟨hj, f, h1, h2, _⟩ := evaluateSet_manualPending pendingBodyFx none []
    upFx insFailFx "gid00" "t1" [⟨"q1", "r1"⟩] ["gpt41"] pendingInitFx
    [("gid00", pendingInitFx)] rfl rfl (by decide) (by decide) rfl (by decide) rfl
  exact ⟨hj, f, h1, by rw [h2]; decide⟩

/-! ## C8 — validation of missing/empty batch fields -/

/-- C8 exhibit: when `questions` or `models` is *absent*, the handler's
opening log line throws before validation and the client receives a **500**
(not the claimed 400); the 400 branches fire only for present-but-empty
arrays.  In every one of these cases no orchestration happens: the store is
unchanged, no responder or judge call is issued, and no Persistent Store
write is attempted. -/
theorem evaluateSet_missingFields (body : EvalSetBody) (user : Option String)
    (st : TStore) (up : Upstream) (ins : EvalSet → Except JsError String)
    (genId now : String) :
    (body.questions = none →
      (evaluateSetHandler body user st up ins genId now).resp =
        .serverError "Cannot read properties of undefined (reading 'length')") ∧
    (∀ qs, body.questions = some qs → body.models = none →
      (evaluateSetHandler body user st up ins genId now).resp =
        .serverError "Cannot read properties of undefined (reading 'join')") ∧
    (∀ ms, body.questions = some [] → body.models = some ms →
      (evaluateSetHandler body user st up ins genId now).resp =
        .badRequest "Missing or invalid questions array") ∧
    (∀ qs, body.questions = some qs → qs ≠ [] → body.models = some [] →
      (evaluateSetHandler body user st up ins genId now).resp =
        .badRequest "No models specified for evaluation") ∧
    ((body.questions = none ∨ body.models = none ∨
        body.questions = some [] ∨ body.models = some []) →
      (evaluateSetHandler body user st up ins genId now).store = st ∧
      (evaluateSetHandler body user st up ins genId now).responderCalls = 0 ∧
      (evaluateSetHandler body user st up ins genId now).judgeCalls = 0 ∧
      (evaluateSetHandler body user st up ins genId now).writes = []) := by
  refine ⟨?_, ?_, ?_, ?_, ?_⟩
  · intro h
    simp [evaluateSetHandler, h]
  · intro qs h1 h2
    simp [evaluateSetHandler, h1, h2]
  · intro ms h1 h2
    simp [evaluateSetHandler, h1, h2]
  · intro qs h1 h2 h3
    have hqe : qs.isEmpty = false := by
      cases qs with
      | nil => exact absurd rfl h2
      | cons _ _ => rfl
    simp [evaluateSetHandler, h1, h3, hqe]
  · intro h
    rcases h with h | h | h | h
    · simp [evaluateSetHandler, h]
    · cases hq : body.questions with
      | none => simp [evaluateSetHandler, hq]
      | some qs => simp [evaluateSetHandler, hq, h]
    · cases hm : body.models with
      | none => simp [evaluateSetHandler, h, hm]
      | some ms => simp [evaluateSetHandler, h, hm]
    · cases hq : body.questions with
      | none => simp [evaluateSetHandler, hq]
      | some qs =>
          cases qs with
          | nil => simp [evaluateSetHandler, hq, h]
          | cons a l => simp [evaluateSetHandler, hq, h]

/-- Witness for C8: a body missing `questions` yields 500 with no
orchestration; a body with an empty `questions` array yields 400. -/
theorem evaluateSet_missingFields_witness :
    (evaluateSetHandler noQBodyFx none [] upFx insFailFx "g" "n").resp =
      .serverError "Cannot read properties of undefined (reading 'length')" ∧
    (evaluateSetHandler noQBodyFx none [] upFx insFailFx "g" "n").store = [] ∧
    (evaluateSetHandler noQBodyFx none [] upFx insFailFx "g" "n").responderCalls = 0 ∧
    (evaluateSetHandler noQBodyFx none [] upFx insFailFx "g" "n").writes = [] ∧
    (evaluateSetHandler emptyQBodyFx none [] upFx insFailFx "g" "n").resp =
      .badRequest "Missing or invalid questions array" := by
  have h1 := evaluateSet_missingFields noQBodyFx none [] upFx insFailFx "g" "n"
  have h2 := evaluateSet_missingFields emptyQBodyFx none [] upFx insFailFx "g" "n"
  exact ⟨h1.1 rfl, (h1.2.2.2.2 (Or.inl rfl)).1, (h1.2.2.2.2 (Or.inl rfl)).2.1,
    (h1.2.2.2.2 (Or.inl rfl)).2.2.2, h2.2.2.1 ["gpt41"] rfl rfl⟩

/-! ## Helper lemmas about the manual patch -/

theorem setFirstMatching_find? (name : String) (ev : Evaluation) :
    ∀ (rs : List Result) (r : Result),
      rs.find? (fun x => x.model == name) = some r →
      (setFirstMatching name ev rs).find? (fun x => x.model == name) =
        some { r with evaluation := ev } := by
  intro rs
  induction rs with
  | nil => intro r h; simp at h
  | cons a rest ih =>
      intro r h
      by_cases hp : a.model = name
      · have ha : a = r := by
          have := List.find?_cons_of_pos (p := fun x => x.model == name) rest
            (by simpa using hp)
          rw [this] at h
          exact Option.some.inj h
        subst ha
        rw [setFirstMatching, if_pos (by simpa using hp)]
        exact List.find?_cons_of_pos _ (by simpa using hp)
      · have h' : rest.find? (fun x => x.model == name) = some r := by
          have := List.find?_cons_of_neg (p := fun x => x.model == name) rest
            (by simpa using hp)
          rw [this] at h
          exact h
        rw [setFirstMatching, if_neg (by simpa using hp)]
        rw [List.find?_cons_of_neg _ (by simpa using hp)]
        exact ih r h'

theorem persistManualPatch_spec (id : String) (patched : EvalSet)
    (newEval : Evaluation) (sis : Bool) (st : TStore) (supa : SupaOracle) :
    (persistManualPatch id patched newEval sis st supa).1.evaluation? =
      some newEval ∧
    ∃ s', storeGet (persistManualPatch id patched newEval sis st supa).2.1 id =
        some s' ∧
      s'.questions = patched.questions := by
  unfold persistManualPatch
  by_cases hu : isUuidFormat id
  · simp only [hu, Bool.not_true, Bool.false_eq_true, if_false]
    cases sis
    · simp only [Bool.false_eq_true, if_false]
      cases hsid : patched.supabaseId with
      | none =>
          cases hins : supa.insert patched with
          | ok sid =>
              simp only [hins]
              exact ⟨rfl, _, storeGet_storeSet_self _ _ _, rfl⟩
          | error e =>
              simp only [hins]
              exact ⟨rfl, _, storeGet_storeSet_self _ _ _, rfl⟩
      | some sid =>
          exact ⟨rfl, _, storeGet_storeSet_self _ _ _, rfl⟩
    · simp only [if_true]
      exact ⟨rfl, _, storeGet_storeSet_self _ _ _, rfl⟩
  · have hu' : isUuidFormat id = false := Bool.eq_false_iff.mpr hu
    simp only [hu', Bool.not_false, if_true]
    cases hins : supa.insert patched with
    | ok sid =>
        simp only [hins]
        exact ⟨rfl, _, storeGet_storeSet_self _ _ _, rfl⟩
    | error e =>
        simp only [hins]
        cases hsid : patched.supabaseId with
        | none =>
            cases hins2 : supa.insert patched with
            | ok sid2 =>
                simp only [hins2]
                exact ⟨rfl, _, storeGet_storeSet_self _ _ _, rfl⟩
            | error e2 =>
                simp only [hins2]
                exact ⟨rfl, _, storeGet_storeSet_self _ _ _, rfl⟩
        | some sid =>
            exact ⟨rfl, _, storeGet_storeSet_self _ _ _, rfl⟩

/-! ## C5 — the manual-patch round trip -/

/-- C5: for a located set, a valid question index and a matching model
display name, applying a manual verdict and re-fetching the set yields, at
that (questionIndex, modelName) address, a Result whose evaluation is
`evaluation_type: "manual"` with exactly the supplied `is_correct`, and with
exactly the supplied `reasoning` when it is non-empty, defaulting to
`"Manually evaluated by user."` when it is empty or absent. -/
theorem manualPatch_roundtrip (body : ManualBody) (user : Option String)
    (st : TStore) (supa : SupaOracle) (now : String) (s0 : EvalSet)
    (sis : Bool) (idx : Nat) (b : Bool) (q : Question) (r : Result)
    (hidx : body.questionIndex = some idx) (hic : body.isCorrect = some b)
    (hid : strTruthy body.evaluationId = true)
    (hmn : strTruthy body.modelName = true)
    (hloc : locateEvalSet body.evaluationId st supa = .ok (s0, sis))
    (hguard : (match user, s0.user_id with
               | some u, some a => strTruthy a && u != a
               | _, _ => false) = false)
    (hq : s0.questions[idx]? = some q)
    (hr : q.results.find? (fun x => x.model == body.modelName) = some r) :
    (manuallyEvaluateResponse body user st supa now).1.evaluation? =
      some (manualEvaluation b body.reasoning user now) ∧
    (∃ s', getEvaluationSet body.evaluationId
        (manuallyEvaluateResponse body user st supa now).2.1 = .ok s' ∧
      s'.questions.length = s0.questions.length ∧
      ∃ q', s'.questions[idx]? = some q' ∧
        q'.results.find? (fun x => x.model == body.modelName) =
          some { r with evaluation := manualEvaluation b body.reasoning user now }) ∧
    (manualEvaluation b body.reasoning user now).evaluation_type = "manual" ∧
    (manualEvaluation b body.reasoning user now).is_correct = some b ∧
    (∀ rs, body.reasoning = some rs → rs ≠ "" →
      (manualEvaluation b body.reasoning user now).reasoning = some rs) ∧
    ((body.reasoning = none ∨ body.reasoning = some "") →
      (manualEvaluation b body.reasoning user now).reasoning =
        some "Manually evaluated by user.") := by
  have hlt : idx < s0.questions.length := by
    rcases List.getElem?_eq_some.mp hq with ⟨h1, _⟩
    exact h1
  have hie : body.evaluationId.isEmpty = false := by
    simpa [strTruthy] using hid
  have hout : manuallyEvaluateResponse body user st supa now =
      persistManualPatch body.evaluationId
        { s0 with questions := (s0.questions.set idx
            ({ q with results := (setFirstMatching body.modelName
                (manualEvaluation b body.reasoning user now) q.results) })) }
        (manualEvaluation b body.reasoning user now) sis st supa := by
    unfold manuallyEvaluateResponse
    simp only [hidx, hic, hid, hmn, Bool.not_true, Bool.or_self,
      Bool.false_eq_true, if_false, hloc, hguard, hq, hr]
  obtain ⟨hresp, s', hget, hqs⟩ := persistManualPatch_spec body.evaluationId
    { s0 with questions := (s0.questions.set idx
        ({ q with results := (setFirstMatching body.modelName
            (manualEvaluation b body.reasoning user now) q.results) })) }
    (manualEvaluation b body.reasoning user now) sis st supa
  refine ⟨by rw [hout]; exact hresp, ?_, rfl, rfl, ?_, ?_⟩
  · refine ⟨s', ?_, ?_, ?_⟩
    · rw [hout]
      unfold getEvaluationSet
      rw [hie, hget]
      simp
    · rw [hqs]
      simp [List.length_set]
    · refine ⟨{ q with results := (setFirstMatching body.modelName
          (manualEvaluation b body.reasoning user now) q.results) }, ?_, ?_⟩
      · rw [hqs]
        exact List.getElem?_set_eq_of_lt _ hlt
      · exact setFirstMatching_find? body.modelName
          (manualEvaluation b body.reasoning user now) q.results r hr
  · intro rs hrs hne
    have hrse : rs.isEmpty = false := by
      cases h' : rs.isEmpty
      · rfl
      · exact absurd ((String.isEmpty_iff rs).mp h') hne
    simp [manualEvaluation, jsOrString, hrs, hrse]
  · intro h
    rcases h with h | h
    · simp [manualEvaluation, jsOrString, h]
    · simp [manualEvaluation, jsOrString, h]
      decide

/-- Witness for C5: a manual verdict `false` with reasoning
`"wrong answer"` on the stored fixture set, then re-fetched. -/
theorem manualPatch_roundtrip_witness :
    (manuallyEvaluateResponse manualBodyFx (some "alice") manualStoreFx
        supaIdleFx "t9").1.evaluation? =
      some (manualEvaluation false (some "wrong answer") (some "alice") "t9") ∧
    (manualEvaluation false (some "wrong answer") (some "alice") "t9").evaluation_type =
      "manual" ∧
    (manualEvaluation false (some "wrong answer") (some "alice") "t9").reasoning =
      some "wrong answer" := by
  have h := manualPatch_roundtrip manualBodyFx (some "alice") manualStoreFx
    supaIdleFx "t9" manualSetFx false 0 false manualQuestionFx manualResultFx
    rfl rfl (by decide) (by decide) rfl (by decide) rfl rfl
  exact ⟨h.1, h.2.2.1, h.2.2.2.2.1 "wrong answer" rfl (by decide)⟩

/-! ## C6 — owner isolation on the manual patch -/

/-- C6: when the located record has a non-null (truthy) owner and the acting
identity differs from it, the manual patch is rejected with 403 before any
mutation: the transient store is returned unchanged and no Persistent Store
write is attempted. -/
theorem manualPatch_ownerForbidden (body : ManualBody) (user : Option String)
    (st : TStore) (supa : SupaOracle) (now : String) (s0 : EvalSet)
    (sis : Bool) (idx : Nat) (b : Bool) (u a : String)
    (hidx : body.questionIndex = some idx) (hic : body.isCorrect = some b)
    (hid : strTruthy body.evaluationId = true)
    (hmn : strTruthy body.modelName = true)
    (hloc : locateEvalSet body.evaluationId st supa = .ok (s0, sis))
    (hu : user = some u) (ha : s0.user_id = some a)
    (hat : strTruthy a = true) (hne : u ≠ a) :
    manuallyEvaluateResponse body user st supa now =
      (.forbidden "You are not authorized to evaluate this set", st, []) := by
  unfold manuallyEvaluateResponse
  simp only [hidx, hic, hid, hmn, Bool.not_true, Bool.or_self,
    Bool.false_eq_true, if_false, hloc, hu, ha]
  have : (strTruthy a && u != a) = true := by
    rw [hat]
    simpa using hne
  simp only [this, if_true]

/-- Witness for C6: identity `"bob"` patching `"alice"`'s set is rejected
with 403 and nothing changes. -/
theorem manualPatch_ownerForbidden_witness :
    manuallyEvaluateResponse manualBodyFx (some "bob") ownedStoreFx
        supaIdleFx "t9" =
      (.forbidden "You are not authorized to evaluate this set",
       ownedStoreFx, []) :=
  manualPatch_ownerForbidden manualBodyFx (some "bob") ownedStoreFx supaIdleFx
    "t9" ownedSetFx false 0 false "bob" "alice" rfl rfl (by decide) (by decide)
    rfl rfl rfl (by decide) (by decide)

/-! ## C7 — a cached remote id does not prevent a fresh INSERT -/

/-- C7 exhibit: on a manual patch to a transient record that already carries
a cached remote id (`supabaseId`), the code performs a fresh INSERT (and
rebinds `supabaseId` to the newly created row) — no UPDATE keyed by the
cached remote id is issued unless that INSERT throws.  This contradicts the
claimed invariant that such a patch always UPDATEs the row keyed by the
cached remote id and never re-inserts. -/
theorem manualPatch_cachedRemoteId_reinserts :
    (List.any (manuallyEvaluateResponse manualBodyFx (some "alice")
        cachedStoreFx supaInsertOkFx "t9").2.2 SupaWrite.isInsert) = true ∧
    (List.any (manuallyEvaluateResponse manualBodyFx (some "alice")
        cachedStoreFx supaInsertOkFx "t9").2.2 SupaWrite.isUpdate) = false ∧
    (manuallyEvaluateResponse manualBodyFx (some "alice") cachedStoreFx
        supaInsertOkFx "t9").1.evaluation? =
      some (manualEvaluation false (some "wrong answer") (some "alice") "t9") := by
  decide

end SimpleEvals
